import Mathlib

/-!
Verification of the log-shipping pipeline in `src/main.py`: a single Docker
container is started, its stdout lines are forwarded one by one to AWS
CloudWatch Logs, and the destination log group/stream are provisioned
idempotently beforehand.

The Python code is shallowly embedded as pure Lean functions.  Exceptions are
modelled with `Except PyError`; observable side effects (sink calls, container
lifecycle operations, logger calls) are recorded in an explicit event trace;
the behaviour of the external collaborators (the CloudWatch sink and the
Docker runtime) is supplied as parameters, since they are external services.
-/

namespace LogShipper

/-- Python exception values that matter to the control flow of `main.py`:
`botocore` `ClientError` carries an error code string; a `UnicodeDecodeError`
is raised by `bytes.decode("utf-8")`; any other exception is `genericError`. -/
inductive PyError where
  | clientError (code : String)
  | decodeError
  | genericError (tag : String)
deriving DecidableEq

/-- The error code that `handle_cloudwatch_errors` in `src/main.py` compares
against: `"ResourceAlreadyExistsException"`. -/
def alreadyExistsCode : String := "ResourceAlreadyExistsException"

/-- A CloudWatch log event as built in `write_logs_to_cloudwatch`:
`{"timestamp": int(time.time() * 1000), "message": line.decode("utf-8")}`.
The message is kept as the list of decoded Unicode code points. -/
structure LogEvent where
  timestamp : Nat
  message : List Nat
deriving DecidableEq

/-- Observable effects of a run: sink API calls, container lifecycle calls
(with whether the call returned normally), and logger calls. -/
inductive Event where
  | createLogGroup (group : String)
  | createLogStream (group stream : String)
  | putAttempt (group stream : String) (events : List LogEvent) (succeeded : Bool)
  | containerRun (image : String) (command : List String) (detach : Bool) (succeeded : Bool)
  | containerStop (succeeded : Bool)
  | containerRemove (succeeded : Bool)
  | logInfo
  | logError
  | logException
deriving DecidableEq

/-! ### Strict UTF-8 decoding, as performed by Python's `bytes.decode("utf-8")` -/

/-- Is `b` a UTF-8 continuation byte (`0x80 ≤ b < 0xC0`)? -/
def isContByte (b : Nat) : Bool := decide (0x80 ≤ b) && decide (b < 0xC0)

/-- Decode one UTF-8 scalar value from the front of a byte list, returning the
code point and the remaining bytes.  Strict: rejects stray continuation
bytes, overlong encodings, surrogate code points and values above U+10FFFF,
as CPython's strict `"utf-8"` codec does. -/
def utf8DecodeOne : List Nat → Option (Nat × List Nat)
  | [] => none
  | b :: rest =>
    if b < 0x80 then some (b, rest)
    else if b < 0xC2 then none
    else if b < 0xE0 then
      match rest with
      | c1 :: r =>
        if isContByte c1 then some ((b - 0xC0) * 0x40 + (c1 - 0x80), r) else none
      | [] => none
    else if b < 0xF0 then
      match rest with
      | c1 :: c2 :: r =>
        if isContByte c1 && isContByte c2 then
          if (b - 0xE0) * 0x1000 + (c1 - 0x80) * 0x40 + (c2 - 0x80) < 0x800 ∨
             (0xD800 ≤ (b - 0xE0) * 0x1000 + (c1 - 0x80) * 0x40 + (c2 - 0x80) ∧
              (b - 0xE0) * 0x1000 + (c1 - 0x80) * 0x40 + (c2 - 0x80) < 0xE000) then none
          else some ((b - 0xE0) * 0x1000 + (c1 - 0x80) * 0x40 + (c2 - 0x80), r)
        else none
      | _ => none
    else if b < 0xF5 then
      match rest with
      | c1 :: c2 :: c3 :: r =>
        if isContByte c1 && isContByte c2 && isContByte c3 then
          if (b - 0xF0) * 0x40000 + (c1 - 0x80) * 0x1000 + (c2 - 0x80) * 0x40 + (c3 - 0x80) < 0x10000 ∨
             0x110000 ≤ (b - 0xF0) * 0x40000 + (c1 - 0x80) * 0x1000 + (c2 - 0x80) * 0x40 + (c3 - 0x80) then
            none
          else some ((b - 0xF0) * 0x40000 + (c1 - 0x80) * 0x1000 + (c2 - 0x80) * 0x40 + (c3 - 0x80), r)
        else none
      | _ => none
    else none

/-- Fuelled decoding loop; `utf8DecodeOne` always consumes at least one byte,
so fuel equal to the length of the input suffices. -/
def utf8DecodeAux : Nat → List Nat → Option (List Nat)
  | _, [] => some []
  | 0, _ :: _ => none
  | fuel + 1, b :: bs =>
    match utf8DecodeOne (b :: bs) with
    | none => none
    | some (cp, r) => (utf8DecodeAux fuel r).map (fun cps => cp :: cps)

/-- `line.decode("utf-8")` of `src/main.py`: `some` code points on valid
UTF-8 input, `none` (a raised `UnicodeDecodeError`) otherwise. -/
def utf8Decode (bs : List Nat) : Option (List Nat) := utf8DecodeAux bs.length bs

/-- The decoded code points of a line, defaulting to `[]`; only used where a
hypothesis guarantees the decode succeeds. -/
def decodeD (bs : List Nat) : List Nat := (utf8Decode bs).getD []

/-! ### The `handle_cloudwatch_errors` decorator -/

/-- `handle_cloudwatch_errors` of `src/main.py`, applied to the outcome of the
wrapped call.  A `ClientError` with code `ResourceAlreadyExistsException` is
suppressed (logged at info level, wrapper returns `None`); any other
`ClientError` is logged via `logger.exception` and re-raised; any other
exception is logged via `logger.exception` and re-raised. -/
def handle_cloudwatch_errors {α : Type} (r : Except PyError α × List Event) :
    Except PyError (Option α) × List Event :=
  match r with
  | (Except.ok a, tr) => (Except.ok (some a), tr)
  | (Except.error (PyError.clientError code), tr) =>
    if code = alreadyExistsCode then
      (Except.ok none, tr ++ [Event.logInfo])
    else
      (Except.error (PyError.clientError code), tr ++ [Event.logException])
  | (Except.error PyError.decodeError, tr) =>
    (Except.error PyError.decodeError, tr ++ [Event.logException])
  | (Except.error (PyError.genericError t), tr) =>
    (Except.error (PyError.genericError t), tr ++ [Event.logException])

/-! ### Resource provisioning -/

/-- One raw `create_log_group` sink call; the sink's behaviour (`none` =
returns normally, `some e` = raises `e`) is a parameter, the call itself is
always recorded in the trace. -/
def create_log_group_call (group : String) (outcome : Option PyError) :
    Except PyError Unit × List Event :=
  match outcome with
  | none => (Except.ok (), [Event.createLogGroup group])
  | some e => (Except.error e, [Event.createLogGroup group])

/-- One raw `create_log_stream` sink call. -/
def create_log_stream_call (group stream : String) (outcome : Option PyError) :
    Except PyError Unit × List Event :=
  match outcome with
  | none => (Except.ok (), [Event.createLogStream group stream])
  | some e => (Except.error e, [Event.createLogStream group stream])

/-- `create_or_verify_cloudwatch_log_group` of `src/main.py`: the raw
creation call wrapped in the decorator. -/
def create_or_verify_cloudwatch_log_group (group : String) (outcome : Option PyError) :
    Except PyError (Option Unit) × List Event :=
  handle_cloudwatch_errors (create_log_group_call group outcome)

/-- `create_or_verify_cloudwatch_log_stream` of `src/main.py`. -/
def create_or_verify_cloudwatch_log_stream (group stream : String) (outcome : Option PyError) :
    Except PyError (Option Unit) × List Event :=
  handle_cloudwatch_errors (create_log_stream_call group stream outcome)

/-! ### Idempotent provisioning against an ideal sink -/

/-- State of the Remote Log Sink (external collaborator, spec section 6): the
sets of existing groups and streams.  Creating an existing resource reports
`ResourceAlreadyExistsException`; creating a fresh one succeeds and records
it.  This models a sink that is reachable and otherwise healthy. -/
structure SinkState where
  groups : List String
  streams : List (String × String)
deriving DecidableEq

/-- `create_log_group` against the ideal sink. -/
def idealCreateLogGroup (s : SinkState) (g : String) : Except PyError Unit × SinkState :=
  if g ∈ s.groups then (Except.error (PyError.clientError alreadyExistsCode), s)
  else (Except.ok (), { s with groups := g :: s.groups })

/-- `create_log_stream` against the ideal sink. -/
def idealCreateLogStream (s : SinkState) (g st : String) : Except PyError Unit × SinkState :=
  if (g, st) ∈ s.streams then (Except.error (PyError.clientError alreadyExistsCode), s)
  else (Except.ok (), { s with streams := (g, st) :: s.streams })

/-- `create_or_verify_cloudwatch_log_group` run against the ideal sink:
the decorated creation call, threading the sink state. -/
def ensure_log_group (s : SinkState) (g : String) : Except PyError (Option Unit) × SinkState :=
  match idealCreateLogGroup s g with
  | (r, s2) => ((handle_cloudwatch_errors (r, ([] : List Event))).1, s2)

/-- `create_or_verify_cloudwatch_log_stream` run against the ideal sink. -/
def ensure_log_stream (s : SinkState) (g st : String) : Except PyError (Option Unit) × SinkState :=
  match idealCreateLogStream s g st with
  | (r, s2) => ((handle_cloudwatch_errors (r, ([] : List Event))).1, s2)

/-! ### The managed container scope -/

/-- How the protected region of the `with` scope exits: normal completion,
a raised exception, or external cancellation (e.g. `KeyboardInterrupt`). -/
inductive ScopeExit (α : Type) where
  | normal (a : α)
  | exn (e : PyError)
  | cancelled
deriving DecidableEq

/-- The shell wrapper applied in `managed_container`:
`command = ["/bin/sh", "-c", command]`. -/
def shellWrap (command : String) : List String := ["/bin/sh", "-c", command]

/-- `managed_container` of `src/main.py`.  `client.containers.run` happens
before the `try`, so a start failure (`startErr = some e`) propagates with no
cleanup.  Otherwise `logger.info` runs, the body runs, and the `finally`
block issues `container.stop()`, then — only if `auto_remove` and only if
`stop` returned — `container.remove()`, then a final `logger.info`.  The
`finally` block has no exception handler, so per Python semantics a failing
`stop`/`remove` raises out of the scope, replacing any in-flight body
outcome, and skips the rest of the block. -/
def managed_container (image command : String) (detach auto_remove : Bool)
    (startErr : Option PyError) (body : ScopeExit Unit × List Event)
    (stopErr removeErr : Option PyError) : ScopeExit Unit × List Event :=
  match startErr with
  | some e =>
    (ScopeExit.exn e, [Event.containerRun image (shellWrap command) detach false])
  | none =>
    match stopErr with
    | some e =>
      (ScopeExit.exn e,
        Event.containerRun image (shellWrap command) detach true :: Event.logInfo ::
          body.2 ++ [Event.containerStop false])
    | none =>
      if auto_remove then
        match removeErr with
        | some e =>
          (ScopeExit.exn e,
            Event.containerRun image (shellWrap command) detach true :: Event.logInfo ::
              body.2 ++ [Event.containerStop true, Event.containerRemove false])
        | none =>
          (body.1,
            Event.containerRun image (shellWrap command) detach true :: Event.logInfo ::
              body.2 ++ [Event.containerStop true, Event.containerRemove true, Event.logInfo])
      else
        (body.1,
          Event.containerRun image (shellWrap command) detach true :: Event.logInfo ::
            body.2 ++ [Event.containerStop true, Event.logInfo])

/-! ### Writing one line to CloudWatch -/

/-- Behaviour of one `put_log_events` sink call: it returns a response whose
body may or may not contain a `"Failed"` key, or it raises. -/
inductive PutOutcome where
  | ok (failedKey : Bool)
  | err (e : PyError)
deriving DecidableEq

/-- Does the sink call return without raising? -/
def PutOutcome.returnsNormally : PutOutcome → Bool
  | PutOutcome.ok _ => true
  | PutOutcome.err _ => false

/-- One raw `put_log_events` call carrying a single log event; recorded in
the trace with whether it returned normally. -/
def put_log_events_call (group stream : String) (ts : Nat) (msg : List Nat)
    (outcome : PutOutcome) : Except PyError Bool × List Event :=
  match outcome with
  | PutOutcome.ok failedKey =>
    (Except.ok failedKey, [Event.putAttempt group stream [LogEvent.mk ts msg] true])
  | PutOutcome.err e =>
    (Except.error e, [Event.putAttempt group stream [LogEvent.mk ts msg] false])

/-- Body of `write_logs_to_cloudwatch` (before the decorator): the line is
decoded while building the call arguments — an invalid line raises a
`UnicodeDecodeError` before any sink call — then `put_log_events` is called
with a single event `{timestamp: ts, message: decoded line}`, and the
response is checked for a `"Failed"` key (`logger.error`) versus success
(`logger.info`). -/
def write_logs_body (group stream : String) (ts : Nat) (outcome : PutOutcome)
    (line : List Nat) : Except PyError Unit × List Event :=
  match utf8Decode line with
  | none => (Except.error PyError.decodeError, [])
  | some msg =>
    match put_log_events_call group stream ts msg outcome with
    | (Except.ok failedKey, tr) =>
      (Except.ok (), tr ++ [if failedKey then Event.logError else Event.logInfo])
    | (Except.error e, tr) => (Except.error e, tr)

/-- `write_logs_to_cloudwatch` of `src/main.py`: the body wrapped in
`handle_cloudwatch_errors`. -/
def write_logs_to_cloudwatch (group stream : String) (ts : Nat) (outcome : PutOutcome)
    (line : List Nat) : Except PyError (Option Unit) × List Event :=
  handle_cloudwatch_errors (write_logs_body group stream ts outcome line)

/-! ### The forwarding loop and `main` -/

/-- The `for line in container.logs(stream=True):` loop of `main`, processing
the lines from position `i` on.  Each iteration logs the line
(`logger.info("Container log: ...")`) and calls the decorated
`write_logs_to_cloudwatch`; `clock i` is the local epoch-millisecond time
observed when line `i` is forwarded and `outcomes i` the sink's behaviour on
that put call.  A raised (undecorated-suppressed) error ends the loop. -/
def forwardFrom (group stream : String) (clock : Nat → Nat) (outcomes : Nat → PutOutcome)
    (i : Nat) : List (List Nat) → Except PyError Unit × List Event
  | [] => (Except.ok (), [])
  | line :: rest =>
    match write_logs_to_cloudwatch group stream (clock i) (outcomes i) line with
    | (Except.ok _, tr) =>
      ((forwardFrom group stream clock outcomes (i + 1) rest).1,
        Event.logInfo :: tr ++ (forwardFrom group stream clock outcomes (i + 1) rest).2)
    | (Except.error e, tr) => (Except.error e, Event.logInfo :: tr)

/-- The CLI arguments of `main.py` that the pipeline reads (credentials and
region are passed through to the SDK client and not otherwise used). -/
structure Args where
  docker_image : String
  bash_command : String
  aws_cloudwatch_group : String
  aws_cloudwatch_stream : String
deriving DecidableEq

/-- Behaviour of the external world during one run: outcomes of the two
provisioning calls, of the container start, the container's output lines,
the local clock and the sink's response to each put call, and the outcomes
of `stop`/`remove` at scope exit. -/
structure WorldBehavior where
  groupOutcome : Option PyError
  streamOutcome : Option PyError
  startErr : Option PyError
  lines : List (List Nat)
  clock : Nat → Nat
  putOutcomes : Nat → PutOutcome
  stopErr : Option PyError
  removeErr : Option PyError

/-- Lift the result of the forwarding loop to a scope-exit value. -/
def exceptToExit : Except PyError Unit → ScopeExit Unit
  | Except.ok _ => ScopeExit.normal ()
  | Except.error e => ScopeExit.exn e

/-- `main` of `src/main.py`: provision the log group, then the log stream
(each aborting the run if it re-raises), then run the forwarding loop inside
`managed_container` (called with `detach=True` and the default
`auto_remove=True`). -/
def main (args : Args) (w : WorldBehavior) : ScopeExit Unit × List Event :=
  match create_or_verify_cloudwatch_log_group args.aws_cloudwatch_group w.groupOutcome with
  | (Except.error e, tr1) => (ScopeExit.exn e, tr1)
  | (Except.ok _, tr1) =>
    match create_or_verify_cloudwatch_log_stream args.aws_cloudwatch_group
        args.aws_cloudwatch_stream w.streamOutcome with
    | (Except.error e, tr2) => (ScopeExit.exn e, tr1 ++ tr2)
    | (Except.ok _, tr2) =>
      match forwardFrom args.aws_cloudwatch_group args.aws_cloudwatch_stream
          w.clock w.putOutcomes 0 w.lines with
      | (bres, btr) =>
        match managed_container args.docker_image args.bash_command true true
            w.startErr (exceptToExit bres, btr) w.stopErr w.removeErr with
        | (res, ctr) => (res, tr1 ++ tr2 ++ ctr)

/-- Exit code of the process: 0 when `main` returns normally, nonzero when an
exception (or an interrupt) propagates out of it unhandled. -/
def exitCode : ScopeExit Unit → Nat
  | ScopeExit.normal _ => 0
  | ScopeExit.exn _ => 1
  | ScopeExit.cancelled => 130

/-! ### Trace observations -/

/-- Is the event a container-start call? -/
def isRun : Event → Bool
  | Event.containerRun _ _ _ _ => true
  | _ => false

/-- Is the event a `container.stop()` call? -/
def isStop : Event → Bool
  | Event.containerStop _ => true
  | _ => false

/-- Is the event a `container.remove()` call? -/
def isRemove : Event → Bool
  | Event.containerRemove _ => true
  | _ => false

/-- Is the event a `put_log_events` call? -/
def isPut : Event → Bool
  | Event.putAttempt _ _ _ _ => true
  | _ => false

/-- Is the event a `logger.error` or `logger.exception` call? -/
def isErrorLog : Event → Bool
  | Event.logError => true
  | Event.logException => true
  | _ => false

/-- All `put_log_events` calls in a trace: destination group, stream and the
submitted event list, in order. -/
def putCallsFull (tr : List Event) : List (String × String × List LogEvent) :=
  tr.filterMap (fun e =>
    match e with
    | Event.putAttempt g s evs _ => some (g, s, evs)
    | _ => none)

/-- The `put_log_events` calls that returned normally (the lines actually
forwarded), in order. -/
def successfulPutCalls (tr : List Event) : List (String × String × List LogEvent) :=
  tr.filterMap (fun e =>
    match e with
    | Event.putAttempt g s evs true => some (g, s, evs)
    | _ => none)

/-- The logger call `write_logs_to_cloudwatch` makes after a put call that
returned normally: `logger.error` when the response contains a `"Failed"`
key, `logger.info` otherwise. -/
def respLogEvent : PutOutcome → Event
  | PutOutcome.ok true => Event.logError
  | _ => Event.logInfo

/-- The trace produced by the forwarding loop on a run of lines whose decode
succeeds and whose put calls all return normally, starting at position `i`:
per line, the container-log `logger.info`, the put call, and the
response-status logger call. -/
def okLineTrace (group stream : String) (clock : Nat → Nat) (outcomes : Nat → PutOutcome) :
    Nat → List (List Nat) → List Event
  | _, [] => []
  | i, line :: rest =>
    Event.logInfo ::
    Event.putAttempt group stream [LogEvent.mk (clock i) (decodeD line)] true ::
    respLogEvent (outcomes i) ::
    okLineTrace group stream clock outcomes (i + 1) rest

/-- A provisioning call with this sink outcome returns normally through the
decorator: the sink either succeeds or reports "already exists". -/
def provisioningOk (o : Option PyError) : Prop :=
  o = none ∨ o = some (PyError.clientError alreadyExistsCode)

instance (o : Option PyError) : Decidable (provisioningOk o) := by
  unfold provisioningOk
  infer_instance

/-! ### Helper lemmas -/

theorem write_logs_ok (group stream : String) (ts : Nat) (fk : Bool) (line msg : List Nat)
    (hmsg : utf8Decode line = some msg) :
    write_logs_to_cloudwatch group stream ts (PutOutcome.ok fk) line =
      (Except.ok (some ()),
        [Event.putAttempt group stream [LogEvent.mk ts msg] true,
          respLogEvent (PutOutcome.ok fk)]) := by
  cases fk <;>
    simp [write_logs_to_cloudwatch, write_logs_body, put_log_events_call,
      handle_cloudwatch_errors, hmsg, respLogEvent]

theorem write_logs_already (group stream : String) (ts : Nat) (line msg : List Nat)
    (hmsg : utf8Decode line = some msg) :
    write_logs_to_cloudwatch group stream ts
        (PutOutcome.err (PyError.clientError alreadyExistsCode)) line =
      (Except.ok none,
        [Event.putAttempt group stream [LogEvent.mk ts msg] false, Event.logInfo]) := by
  simp [write_logs_to_cloudwatch, write_logs_body, put_log_events_call,
    handle_cloudwatch_errors, hmsg]

theorem write_logs_raises (group stream : String) (ts : Nat) (line msg : List Nat)
    (e : PyError) (hmsg : utf8Decode line = some msg)
    (he : e ≠ PyError.clientError alreadyExistsCode) :
    write_logs_to_cloudwatch group stream ts (PutOutcome.err e) line =
      (Except.error e,
        [Event.putAttempt group stream [LogEvent.mk ts msg] false, Event.logException]) := by
  cases e with
  | clientError code =>
    have hcode : ¬ code = alreadyExistsCode := by
      intro h
      exact he (by rw [h])
    simp [write_logs_to_cloudwatch, write_logs_body, put_log_events_call,
      handle_cloudwatch_errors, hmsg, hcode]
  | decodeError =>
    simp [write_logs_to_cloudwatch, write_logs_body, put_log_events_call,
      handle_cloudwatch_errors, hmsg]
  | genericError t =>
    simp [write_logs_to_cloudwatch, write_logs_body, put_log_events_call,
      handle_cloudwatch_errors, hmsg]

theorem write_logs_decode_fail (group stream : String) (ts : Nat) (outcome : PutOutcome)
    (line : List Nat) (h : utf8Decode line = none) :
    write_logs_to_cloudwatch group stream ts outcome line =
      (Except.error PyError.decodeError, [Event.logException]) := by
  simp [write_logs_to_cloudwatch, write_logs_body, handle_cloudwatch_errors, h]

theorem forwardFrom_ok_segment (group stream : String) (clock : Nat → Nat)
    (outcomes : Nat → PutOutcome) :
    ∀ (pre : List (List Nat)) (i : Nat) (suf : List (List Nat)),
      (∀ l ∈ pre, (utf8Decode l).isSome = true) →
      (∀ j, j < pre.length → (outcomes (i + j)).returnsNormally = true) →
      forwardFrom group stream clock outcomes i (pre ++ suf) =
        ((forwardFrom group stream clock outcomes (i + pre.length) suf).1,
          okLineTrace group stream clock outcomes i pre ++
            (forwardFrom group stream clock outcomes (i + pre.length) suf).2) := by
  intro pre
  induction pre with
  | nil =>
    intro i suf _ _
    simp [okLineTrace]
  | cons line pre ih =>
    intro i suf hdec hok
    have hline : (utf8Decode line).isSome = true := hdec line (by simp)
    obtain ⟨msg, hmsg⟩ := Option.isSome_iff_exists.mp hline
    have hi : (outcomes i).returnsNormally = true := by
      have h0 := hok 0 (by simp)
      simpa using h0
    cases houtcome : outcomes i with
    | err e =>
      rw [houtcome] at hi
      simp [PutOutcome.returnsNormally] at hi
    | ok fk =>
      have hpre : ∀ l ∈ pre, (utf8Decode l).isSome = true := by
        intro l hl
        exact hdec l (by simp [hl])
      have hok2 : ∀ j, j < pre.length → (outcomes (i + 1 + j)).returnsNormally = true := by
        intro j hj
        have h1 := hok (j + 1) (by simpa using Nat.succ_lt_succ hj)
        have h2 : i + (j + 1) = i + 1 + j := by omega
        rwa [h2] at h1
      have harith : i + (pre.length + 1) = i + 1 + pre.length := by omega
      have hd : decodeD line = msg := by simp [decodeD, hmsg]
      simp only [List.cons_append, forwardFrom, houtcome, write_logs_ok group stream (clock i) fk line msg hmsg,
        okLineTrace, List.length_cons, harith, hd]
      simp only [List.append_eq]
      rw [ih (i + 1) suf hpre hok2]
      simp

theorem respLogEvent_shape (o : PutOutcome) :
    respLogEvent o = Event.logError ∨ respLogEvent o = Event.logInfo := by
  cases o with
  | ok fk => cases fk <;> simp [respLogEvent]
  | err e => simp [respLogEvent]

theorem putCallsFull_nil : putCallsFull [] = [] := rfl

theorem putCallsFull_cons_put (g s : String) (evs : List LogEvent) (b : Bool) (tr : List Event) :
    putCallsFull (Event.putAttempt g s evs b :: tr) = (g, s, evs) :: putCallsFull tr := rfl

theorem putCallsFull_cons_logInfo (tr : List Event) :
    putCallsFull (Event.logInfo :: tr) = putCallsFull tr := rfl

theorem putCallsFull_cons_logError (tr : List Event) :
    putCallsFull (Event.logError :: tr) = putCallsFull tr := rfl

theorem putCallsFull_cons_logException (tr : List Event) :
    putCallsFull (Event.logException :: tr) = putCallsFull tr := rfl

theorem putCallsFull_append (tr1 tr2 : List Event) :
    putCallsFull (tr1 ++ tr2) = putCallsFull tr1 ++ putCallsFull tr2 :=
  List.filterMap_append tr1 tr2 _

theorem successfulPutCalls_nil : successfulPutCalls [] = [] := rfl

theorem successfulPutCalls_cons_put_true (g s : String) (evs : List LogEvent) (tr : List Event) :
    successfulPutCalls (Event.putAttempt g s evs true :: tr) =
      (g, s, evs) :: successfulPutCalls tr := rfl

theorem successfulPutCalls_cons_put_false (g s : String) (evs : List LogEvent) (tr : List Event) :
    successfulPutCalls (Event.putAttempt g s evs false :: tr) = successfulPutCalls tr := rfl

theorem successfulPutCalls_cons_logInfo (tr : List Event) :
    successfulPutCalls (Event.logInfo :: tr) = successfulPutCalls tr := rfl

theorem successfulPutCalls_cons_logError (tr : List Event) :
    successfulPutCalls (Event.logError :: tr) = successfulPutCalls tr := rfl

theorem successfulPutCalls_cons_logException (tr : List Event) :
    successfulPutCalls (Event.logException :: tr) = successfulPutCalls tr := rfl

theorem successfulPutCalls_append (tr1 tr2 : List Event) :
    successfulPutCalls (tr1 ++ tr2) = successfulPutCalls tr1 ++ successfulPutCalls tr2 :=
  List.filterMap_append tr1 tr2 _

theorem putCallsFull_okLineTrace (group stream : String) (clock : Nat → Nat)
    (outcomes : Nat → PutOutcome) :
    ∀ (pre : List (List Nat)) (i : Nat),
      putCallsFull (okLineTrace group stream clock outcomes i pre) =
        (List.enumFrom i pre).map
          (fun p => (group, stream, [LogEvent.mk (clock p.1) (decodeD p.2)])) := by
  intro pre
  induction pre with
  | nil =>
    intro i
    simp [okLineTrace, putCallsFull_nil]
  | cons line pre ih =>
    intro i
    rcases respLogEvent_shape (outcomes i) with h | h <;>
      simp [okLineTrace, h, putCallsFull_cons_logInfo, putCallsFull_cons_logError,
        putCallsFull_cons_put, List.enumFrom, ih (i + 1)]

theorem successfulPutCalls_okLineTrace (group stream : String) (clock : Nat → Nat)
    (outcomes : Nat → PutOutcome) :
    ∀ (pre : List (List Nat)) (i : Nat),
      successfulPutCalls (okLineTrace group stream clock outcomes i pre) =
        (List.enumFrom i pre).map
          (fun p => (group, stream, [LogEvent.mk (clock p.1) (decodeD p.2)])) := by
  intro pre
  induction pre with
  | nil =>
    intro i
    simp [okLineTrace, successfulPutCalls_nil]
  | cons line pre ih =>
    intro i
    rcases respLogEvent_shape (outcomes i) with h | h <;>
      simp [okLineTrace, h, successfulPutCalls_cons_logInfo, successfulPutCalls_cons_logError,
        successfulPutCalls_cons_put_true, List.enumFrom, ih (i + 1)]

theorem forwardFrom_no_lifecycle (group stream : String) (clock : Nat → Nat)
    (outcomes : Nat → PutOutcome) :
    ∀ (lines : List (List Nat)) (i : Nat),
      ∀ e ∈ (forwardFrom group stream clock outcomes i lines).2,
        isRun e = false ∧ isStop e = false ∧ isRemove e = false := by
  intro lines
  induction lines with
  | nil =>
    intro i e he
    simp [forwardFrom] at he
  | cons line rest ih =>
    intro i e he
    cases hdec : utf8Decode line with
    | none =>
      rw [forwardFrom, write_logs_decode_fail group stream (clock i) (outcomes i) line hdec] at he
      simp at he
      rcases he with rfl | rfl <;> simp [isRun, isStop, isRemove]
    | some msg =>
      cases houtcome : outcomes i with
      | ok fk =>
        rw [forwardFrom, houtcome,
          write_logs_ok group stream (clock i) fk line msg hdec] at he
        simp at he
        rcases he with rfl | rfl | he2
        · simp [isRun, isStop, isRemove]
        · simp [isRun, isStop, isRemove]
        · rcases he2 with rfl | he3
          · rcases respLogEvent_shape (PutOutcome.ok fk) with h | h <;>
              rw [h] <;> simp [isRun, isStop, isRemove]
          · exact ih (i + 1) e he3
      | err e2 =>
        by_cases he2 : e2 = PyError.clientError alreadyExistsCode
        · subst he2
          rw [forwardFrom, houtcome,
            write_logs_already group stream (clock i) line msg hdec] at he
          simp at he
          rcases he with rfl | rfl | he3
          · simp [isRun, isStop, isRemove]
          · simp [isRun, isStop, isRemove]
          · rcases he3 with rfl | he4
            · simp [isRun, isStop, isRemove]
            · exact ih (i + 1) e he4
        · rw [forwardFrom, houtcome,
            write_logs_raises group stream (clock i) line msg e2 hdec he2] at he
          simp at he
          rcases he with rfl | rfl | rfl <;> simp [isRun, isStop, isRemove]

/-! ### Claims -/

/-- C1: on every exit path of the container scope in `managed_container`
(normal completion `bres = normal`, an exception raised inside the scope
`bres = exn e`, or external cancellation `bres = cancelled`),
`container.stop()` is invoked exactly once, and once `stop` completes
(modelled by `stopErr = none`, as the claim conditions removal on stop
completing) `container.remove()` is invoked exactly once, after `stop`. -/
theorem claim_C1_stop_then_remove_on_every_exit (image command : String)
    (bres : ScopeExit Unit) (btr : List Event) (removeErr : Option PyError)
    (hbody : ∀ e ∈ btr, isStop e = false ∧ isRemove e = false) :
    (((managed_container image command true true none (bres, btr) none removeErr).2.filter
        isStop).length = 1) ∧
    (((managed_container image command true true none (bres, btr) none removeErr).2.filter
        isRemove).length = 1) ∧
    ∃ (b : Bool) (pre mid post : List Event),
      (managed_container image command true true none (bres, btr) none removeErr).2 =
        pre ++ Event.containerStop true :: mid ++ Event.containerRemove b :: post := by
  have hstopnil : btr.filter isStop = [] :=
    List.filter_eq_nil_iff.mpr (fun a ha => by simp [(hbody a ha).1])
  have hremnil : btr.filter isRemove = [] :=
    List.filter_eq_nil_iff.mpr (fun a ha => by simp [(hbody a ha).2])
  cases removeErr with
  | none =>
    refine ⟨?_, ?_,
      true, Event.containerRun image (shellWrap command) true true :: Event.logInfo :: btr,
      [], [Event.logInfo], ?_⟩
    · simp [managed_container, List.filter_append, hstopnil, isStop]
    · simp [managed_container, List.filter_append, hremnil, isRemove]
    · simp [managed_container]
  | some e =>
    refine ⟨?_, ?_,
      false, Event.containerRun image (shellWrap command) true true :: Event.logInfo :: btr,
      [], [], ?_⟩
    · simp [managed_container, List.filter_append, hstopnil, isStop]
    · simp [managed_container, List.filter_append, hremnil, isRemove]
    · simp [managed_container]

/-- Witness for C1 at a concrete input: body raised an exception, remove
succeeds. -/
theorem claim_C1_stop_then_remove_on_every_exit_witness :
    (((managed_container "img" "cmd" true true none
        (ScopeExit.exn (PyError.genericError "boom"), []) none none).2.filter
        isStop).length = 1) ∧
    (((managed_container "img" "cmd" true true none
        (ScopeExit.exn (PyError.genericError "boom"), []) none none).2.filter
        isRemove).length = 1) ∧
    ∃ (b : Bool) (pre mid post : List Event),
      (managed_container "img" "cmd" true true none
        (ScopeExit.exn (PyError.genericError "boom"), []) none none).2 =
        pre ++ Event.containerStop true :: mid ++ Event.containerRemove b :: post :=
  claim_C1_stop_then_remove_on_every_exit "img" "cmd"
    (ScopeExit.exn (PyError.genericError "boom")) [] none (by simp)

/-- C4 fails on the code: with an in-flight error `genericError "inflight"`
in the scope and a failing `container.stop()`, the error that propagates is
the stop failure, not the in-flight error, and nothing is logged at error
level — the `finally` block of `managed_container` has no exception
handler around `stop()`/`remove()`. -/
theorem claim_C4_counterexample :
    (managed_container "img" "cmd" true true none
        (ScopeExit.exn (PyError.genericError "inflight"), [])
        (some (PyError.genericError "stopfail")) none).1 ≠
      ScopeExit.exn (PyError.genericError "inflight") ∧
    (managed_container "img" "cmd" true true none
        (ScopeExit.exn (PyError.genericError "inflight"), [])
        (some (PyError.genericError "stopfail")) none).1 =
      ScopeExit.exn (PyError.genericError "stopfail") ∧
    ((managed_container "img" "cmd" true true none
        (ScopeExit.exn (PyError.genericError "inflight"), [])
        (some (PyError.genericError "stopfail")) none).2.filter isErrorLog) = [] := by
  refine ⟨?_, ?_, ?_⟩
  · intro h
    simp [managed_container] at h
  · simp [managed_container]
  · simp [managed_container, isErrorLog]

/-- C4 amended: when the scope exits with an in-flight error and the
subsequent `stop` (or, if `stop` completed, `remove`) call fails, the
cleanup failure is NOT logged by `managed_container` and it is the cleanup
failure — not the in-flight error — that propagates out of the scope,
replacing it; when `stop` fails, `remove` is never called. -/
theorem claim_C4_amended_cleanup_error_masks (image command : String) (e s : PyError)
    (btr : List Event) (rm : Option PyError) :
    (managed_container image command true true none (ScopeExit.exn e, btr) (some s) rm =
      (ScopeExit.exn s,
        Event.containerRun image (shellWrap command) true true :: Event.logInfo ::
          btr ++ [Event.containerStop false])) ∧
    (managed_container image command true true none (ScopeExit.exn e, btr) none (some s) =
      (ScopeExit.exn s,
        Event.containerRun image (shellWrap command) true true :: Event.logInfo ::
          btr ++ [Event.containerStop true, Event.containerRemove false])) := by
  constructor <;> simp [managed_container]

/-- C8: `managed_container` issues exactly one container-start call, always
for the given image with the command wrapped as `["/bin/sh", "-c", command]`
and `detach = True`; a start failure propagates immediately to the caller as
the raised error, with no retry and no cleanup calls. -/
theorem claim_C8_single_shell_wrapped_start (image command : String)
    (startErr : Option PyError) (body : ScopeExit Unit × List Event)
    (stopErr removeErr : Option PyError)
    (hbody : ∀ e ∈ body.2, isRun e = false) :
    (∃ b : Bool,
      (managed_container image command true true startErr body stopErr removeErr).2.filter
          isRun =
        [Event.containerRun image (shellWrap command) true b]) ∧
    (∀ e, startErr = some e →
      managed_container image command true true startErr body stopErr removeErr =
        (ScopeExit.exn e, [Event.containerRun image (shellWrap command) true false])) := by
  have hrunnil : body.2.filter isRun = [] :=
    List.filter_eq_nil_iff.mpr (fun a ha => by simp [hbody a ha])
  refine ⟨?_, ?_⟩
  · cases startErr with
    | some e => exact ⟨false, by simp [managed_container, isRun]⟩
    | none =>
      refine ⟨true, ?_⟩
      cases stopErr with
      | some e2 => simp [managed_container, List.filter_append, hrunnil, isRun]
      | none =>
        cases removeErr with
        | some e3 => simp [managed_container, List.filter_append, hrunnil, isRun]
        | none => simp [managed_container, List.filter_append, hrunnil, isRun]
  · intro e he
    subst he
    simp [managed_container]

/-- Witness for C8 at a concrete input: a start failure propagates as such. -/
theorem claim_C8_single_shell_wrapped_start_witness :
    (∃ b : Bool,
      (managed_container "img" "cmd" true true (some (PyError.genericError "nostart"))
          (ScopeExit.normal (), []) none none).2.filter isRun =
        [Event.containerRun "img" (shellWrap "cmd") true b]) ∧
    (∀ e, some (PyError.genericError "nostart") = some e →
      managed_container "img" "cmd" true true (some (PyError.genericError "nostart"))
          (ScopeExit.normal (), []) none none =
        (ScopeExit.exn e, [Event.containerRun "img" (shellWrap "cmd") true false])) :=
  claim_C8_single_shell_wrapped_start "img" "cmd" (some (PyError.genericError "nostart"))
    (ScopeExit.normal (), []) none none (by simp)

/-- C2: when every line decodes and every sink write returns without
raising, the forwarding loop makes exactly one `put_log_events` call per
line — `N` calls for `N` lines — in the order the lines were received, the
`i`-th call carrying the `i`-th line against the configured group and
stream, and the loop completes normally. -/
theorem claim_C2_one_put_per_line_in_order (group stream : String) (clock : Nat → Nat)
    (outcomes : Nat → PutOutcome) (lines : List (List Nat))
    (hdec : ∀ l ∈ lines, (utf8Decode l).isSome = true)
    (hok : ∀ j, (outcomes j).returnsNormally = true) :
    (forwardFrom group stream clock outcomes 0 lines).1 = Except.ok () ∧
    putCallsFull (forwardFrom group stream clock outcomes 0 lines).2 =
      (List.enumFrom 0 lines).map
        (fun p => (group, stream, [LogEvent.mk (clock p.1) (decodeD p.2)])) ∧
    (putCallsFull (forwardFrom group stream clock outcomes 0 lines).2).length =
      lines.length := by
  have h := forwardFrom_ok_segment group stream clock outcomes lines 0 []
    hdec (fun j _ => by simpa using hok j)
  rw [List.append_nil] at h
  rw [h]
  refine ⟨rfl, ?_, ?_⟩
  · simp [forwardFrom, putCallsFull_append, putCallsFull_nil,
      putCallsFull_okLineTrace group stream clock outcomes lines 0]
  · simp [forwardFrom, putCallsFull_append, putCallsFull_nil,
      putCallsFull_okLineTrace group stream clock outcomes lines 0]

/-- Witness for C2 on a two-line output. -/
theorem claim_C2_one_put_per_line_in_order_witness :
    (forwardFrom "g" "s" (fun j => 100 + j) (fun _ => PutOutcome.ok false) 0
        [[104, 105], [104, 111]]).1 = Except.ok () ∧
    putCallsFull (forwardFrom "g" "s" (fun j => 100 + j) (fun _ => PutOutcome.ok false) 0
        [[104, 105], [104, 111]]).2 =
      (List.enumFrom 0 [[104, 105], [104, 111]]).map
        (fun p => ("g", "s", [LogEvent.mk ((fun j => 100 + j) p.1) (decodeD p.2)])) ∧
    (putCallsFull (forwardFrom "g" "s" (fun j => 100 + j) (fun _ => PutOutcome.ok false) 0
        [[104, 105], [104, 111]]).2).length = [[104, 105], [104, 111]].length :=
  claim_C2_one_put_per_line_in_order "g" "s" (fun j => 100 + j) (fun _ => PutOutcome.ok false)
    [[104, 105], [104, 111]] (by decide) (fun _ => rfl)

/-- C3: the decorated provisioning operations return normally when the sink
reports "resource already exists" and re-raise any other sink failure; and
against the ideal sink, a second call in succession of either operation is
suppressed as already-exists, i.e. never fails. -/
theorem claim_C3_idempotent_provisioning (g st : String) (s : SinkState) :
    ((create_or_verify_cloudwatch_log_group g
        (some (PyError.clientError alreadyExistsCode))).1 = Except.ok none) ∧
    ((create_or_verify_cloudwatch_log_stream g st
        (some (PyError.clientError alreadyExistsCode))).1 = Except.ok none) ∧
    (∀ e : PyError, e ≠ PyError.clientError alreadyExistsCode →
      (create_or_verify_cloudwatch_log_group g (some e)).1 = Except.error e ∧
      (create_or_verify_cloudwatch_log_stream g st (some e)).1 = Except.error e) ∧
    ((ensure_log_group (ensure_log_group s g).2 g).1 = Except.ok none) ∧
    ((ensure_log_stream (ensure_log_stream s g st).2 g st).1 = Except.ok none) := by
  refine ⟨?_, ?_, ?_, ?_, ?_⟩
  · simp [create_or_verify_cloudwatch_log_group, create_log_group_call,
      handle_cloudwatch_errors]
  · simp [create_or_verify_cloudwatch_log_stream, create_log_stream_call,
      handle_cloudwatch_errors]
  · intro e he
    cases e with
    | clientError code =>
      have hcode : ¬ code = alreadyExistsCode := by
        intro h
        exact he (by rw [h])
      constructor <;>
        simp [create_or_verify_cloudwatch_log_group, create_or_verify_cloudwatch_log_stream,
          create_log_group_call, create_log_stream_call, handle_cloudwatch_errors, hcode]
    | decodeError =>
      constructor <;>
        simp [create_or_verify_cloudwatch_log_group, create_or_verify_cloudwatch_log_stream,
          create_log_group_call, create_log_stream_call, handle_cloudwatch_errors]
    | genericError t =>
      constructor <;>
        simp [create_or_verify_cloudwatch_log_group, create_or_verify_cloudwatch_log_stream,
          create_log_group_call, create_log_stream_call, handle_cloudwatch_errors]
  · by_cases hmem : g ∈ s.groups <;>
      simp [ensure_log_group, idealCreateLogGroup, handle_cloudwatch_errors, hmem]
  · by_cases hmem : (g, st) ∈ s.streams <;>
      simp [ensure_log_stream, idealCreateLogStream, handle_cloudwatch_errors, hmem]

/-- Witness for C3 at a concrete group, stream and empty sink state. -/
theorem claim_C3_idempotent_provisioning_witness :
    ((create_or_verify_cloudwatch_log_group "g1"
        (some (PyError.clientError alreadyExistsCode))).1 = Except.ok none) ∧
    ((create_or_verify_cloudwatch_log_stream "g1" "s1"
        (some (PyError.clientError alreadyExistsCode))).1 = Except.ok none) ∧
    (∀ e : PyError, e ≠ PyError.clientError alreadyExistsCode →
      (create_or_verify_cloudwatch_log_group "g1" (some e)).1 = Except.error e ∧
      (create_or_verify_cloudwatch_log_stream "g1" "s1" (some e)).1 = Except.error e) ∧
    ((ensure_log_group (ensure_log_group (SinkState.mk [] []) "g1").2 "g1").1 =
      Except.ok none) ∧
    ((ensure_log_stream (ensure_log_stream (SinkState.mk [] []) "g1" "s1").2 "g1" "s1").1 =
      Except.ok none) :=
  claim_C3_idempotent_provisioning "g1" "s1" (SinkState.mk [] [])

/-- C5: when a put call returns normally but its response body contains a
`"Failed"` key, `write_logs_to_cloudwatch` emits a `logger.error` and
returns normally, and the forwarding loop goes on to process the remaining
lines exactly as it would have. -/
theorem claim_C5_partial_failure_continues (group stream : String) (clock : Nat → Nat)
    (outcomes : Nat → PutOutcome) (i : Nat) (line msg : List Nat) (rest : List (List Nat))
    (hmsg : utf8Decode line = some msg) (hout : outcomes i = PutOutcome.ok true) :
    (write_logs_to_cloudwatch group stream (clock i) (PutOutcome.ok true) line).1 =
      Except.ok (some ()) ∧
    Event.logError ∈
      (write_logs_to_cloudwatch group stream (clock i) (PutOutcome.ok true) line).2 ∧
    forwardFrom group stream clock outcomes i (line :: rest) =
      ((forwardFrom group stream clock outcomes (i + 1) rest).1,
        Event.logInfo ::
          Event.putAttempt group stream [LogEvent.mk (clock i) msg] true ::
            Event.logError ::
              (forwardFrom group stream clock outcomes (i + 1) rest).2) := by
  refine ⟨?_, ?_, ?_⟩
  · rw [write_logs_ok group stream (clock i) true line msg hmsg]
  · rw [write_logs_ok group stream (clock i) true line msg hmsg]
    simp [respLogEvent]
  · rw [forwardFrom, hout, write_logs_ok group stream (clock i) true line msg hmsg]
    simp [respLogEvent]

/-- Witness for C5: the line after a partial-failure response is still
forwarded. -/
theorem claim_C5_partial_failure_continues_witness :
    (write_logs_to_cloudwatch "g" "s" ((fun _ => 7) 0) (PutOutcome.ok true) [104]).1 =
      Except.ok (some ()) ∧
    Event.logError ∈
      (write_logs_to_cloudwatch "g" "s" ((fun _ => 7) 0) (PutOutcome.ok true) [104]).2 ∧
    forwardFrom "g" "s" (fun _ => 7)
        (fun j => if j = 0 then PutOutcome.ok true else PutOutcome.ok false) 0
        ([104] :: [[105]]) =
      ((forwardFrom "g" "s" (fun _ => 7)
          (fun j => if j = 0 then PutOutcome.ok true else PutOutcome.ok false) (0 + 1)
          [[105]]).1,
        Event.logInfo ::
          Event.putAttempt "g" "s" [LogEvent.mk ((fun _ => 7) 0) [104]] true ::
            Event.logError ::
              (forwardFrom "g" "s" (fun _ => 7)
                (fun j => if j = 0 then PutOutcome.ok true else PutOutcome.ok false) (0 + 1)
                [[105]]).2) :=
  claim_C5_partial_failure_continues "g" "s" (fun _ => 7)
    (fun j => if j = 0 then PutOutcome.ok true else PutOutcome.ok false) 0
    [104] [104] [[105]] (by decide) (by decide)

/-- C9: for a line whose bytes decode as UTF-8 to `msg`, the decorated
`write_logs_to_cloudwatch` makes exactly one `put_log_events` call,
carrying exactly one log event whose timestamp is the epoch-millisecond
time `ts` captured at the moment of forwarding and whose message is `msg`,
against the configured group and stream — whatever the sink then does. -/
theorem claim_C9_single_event_write (group stream : String) (ts : Nat)
    (outcome : PutOutcome) (line msg : List Nat) (hmsg : utf8Decode line = some msg) :
    putCallsFull (write_logs_to_cloudwatch group stream ts outcome line).2 =
      [(group, stream, [LogEvent.mk ts msg])] := by
  cases outcome with
  | ok fk =>
    rw [write_logs_ok group stream ts fk line msg hmsg]
    rcases respLogEvent_shape (PutOutcome.ok fk) with h | h <;> rw [h] <;> rfl
  | err e =>
    by_cases he : e = PyError.clientError alreadyExistsCode
    · subst he
      rw [write_logs_already group stream ts line msg hmsg]
      rfl
    · rw [write_logs_raises group stream ts line msg e hmsg he]
      rfl

/-- Witness for C9 on the bytes of `"hello"`. -/
theorem claim_C9_single_event_write_witness :
    putCallsFull (write_logs_to_cloudwatch "g1" "s1" 1700000000000 (PutOutcome.ok false)
        [104, 101, 108, 108, 111]).2 =
      [("g1", "s1", [LogEvent.mk 1700000000000 [104, 101, 108, 108, 111]])] :=
  claim_C9_single_event_write "g1" "s1" 1700000000000 (PutOutcome.ok false)
    [104, 101, 108, 108, 111] [104, 101, 108, 108, 111] (by decide)

/-- C10: a line whose bytes are not valid UTF-8 makes
`write_logs_to_cloudwatch` raise — the `UnicodeDecodeError` is logged by the
decorator's catch-all handler and re-raised — before any `put_log_events`
call is made for that line, and the forwarding loop terminates there even
though the sink itself reported no error. -/
theorem claim_C10_invalid_utf8_raises_before_put (group stream : String)
    (clock : Nat → Nat) (outcomes : Nat → PutOutcome) (i : Nat) (line : List Nat)
    (rest : List (List Nat)) (hbad : utf8Decode line = none) :
    write_logs_to_cloudwatch group stream (clock i) (outcomes i) line =
      (Except.error PyError.decodeError, [Event.logException]) ∧
    putCallsFull (write_logs_to_cloudwatch group stream (clock i) (outcomes i) line).2 =
      [] ∧
    forwardFrom group stream clock outcomes i (line :: rest) =
      (Except.error PyError.decodeError, [Event.logInfo, Event.logException]) := by
  refine ⟨write_logs_decode_fail group stream (clock i) (outcomes i) line hbad, ?_, ?_⟩
  · rw [write_logs_decode_fail group stream (clock i) (outcomes i) line hbad]
    rfl
  · rw [forwardFrom, write_logs_decode_fail group stream (clock i) (outcomes i) line hbad]

/-- Witness for C10 at the single byte `0xFF`, which is not valid UTF-8,
with a sink that would have accepted the write. -/
theorem claim_C10_invalid_utf8_raises_before_put_witness :
    write_logs_to_cloudwatch "g" "s" ((fun _ => 5) 0) ((fun _ => PutOutcome.ok false) 0)
        [255] =
      (Except.error PyError.decodeError, [Event.logException]) ∧
    putCallsFull (write_logs_to_cloudwatch "g" "s" ((fun _ => 5) 0)
        ((fun _ => PutOutcome.ok false) 0) [255]).2 = [] ∧
    forwardFrom "g" "s" (fun _ => 5) (fun _ => PutOutcome.ok false) 0 ([255] :: [[104]]) =
      (Except.error PyError.decodeError, [Event.logInfo, Event.logException]) :=
  claim_C10_invalid_utf8_raises_before_put "g" "s" (fun _ => 5)
    (fun _ => PutOutcome.ok false) 0 [255] [[104]] (by decide)

theorem successfulPutCalls_cons_createLogGroup (g : String) (tr : List Event) :
    successfulPutCalls (Event.createLogGroup g :: tr) = successfulPutCalls tr := rfl

theorem successfulPutCalls_cons_createLogStream (g s : String) (tr : List Event) :
    successfulPutCalls (Event.createLogStream g s :: tr) = successfulPutCalls tr := rfl

theorem successfulPutCalls_cons_containerRun (img : String) (cmd : List String) (d b : Bool)
    (tr : List Event) :
    successfulPutCalls (Event.containerRun img cmd d b :: tr) = successfulPutCalls tr := rfl

theorem successfulPutCalls_cons_containerStop (b : Bool) (tr : List Event) :
    successfulPutCalls (Event.containerStop b :: tr) = successfulPutCalls tr := rfl

theorem successfulPutCalls_cons_containerRemove (b : Bool) (tr : List Event) :
    successfulPutCalls (Event.containerRemove b :: tr) = successfulPutCalls tr := rfl

/-- C7: a container start call appears in the trace of `main` only when both
provisioning calls returned normally (created or suppressed already-exists);
when both did, the full provisioning traces precede everything else; and
when either provisioning call re-raises, `main` exits nonzero with no
container-start call and no `put_log_events` call in the trace. -/
theorem claim_C7_provision_before_any_start (args : Args) (w : WorldBehavior) :
    ((main args w).2.filter isRun ≠ [] →
      provisioningOk w.groupOutcome ∧ provisioningOk w.streamOutcome) ∧
    (provisioningOk w.groupOutcome ∧ provisioningOk w.streamOutcome →
      ∃ ctr,
        (main args w).2 =
          (create_or_verify_cloudwatch_log_group args.aws_cloudwatch_group w.groupOutcome).2 ++
            (create_or_verify_cloudwatch_log_stream args.aws_cloudwatch_group
              args.aws_cloudwatch_stream w.streamOutcome).2 ++ ctr) ∧
    (¬ provisioningOk w.groupOutcome ∨ ¬ provisioningOk w.streamOutcome →
      exitCode (main args w).1 ≠ 0 ∧
      (main args w).2.filter isRun = [] ∧ (main args w).2.filter isPut = []) := by
  by_cases hg : provisioningOk w.groupOutcome
  · by_cases hs : provisioningOk w.streamOutcome
    · refine ⟨fun _ => ⟨hg, hs⟩, fun _ => ?_, fun hcon => ?_⟩
      · rcases hg with hg | hg <;> rcases hs with hs | hs <;>
          exact ⟨(managed_container args.docker_image args.bash_command true true w.startErr
              (exceptToExit (forwardFrom args.aws_cloudwatch_group args.aws_cloudwatch_stream
                  w.clock w.putOutcomes 0 w.lines).1,
                (forwardFrom args.aws_cloudwatch_group args.aws_cloudwatch_stream
                  w.clock w.putOutcomes 0 w.lines).2) w.stopErr w.removeErr).2,
            by simp [main, create_or_verify_cloudwatch_log_group,
              create_or_verify_cloudwatch_log_stream, create_log_group_call,
              create_log_stream_call, handle_cloudwatch_errors, hg, hs]⟩
      · rcases hcon with hcon | hcon <;> exact absurd (by assumption) hcon
    · have hmain : main args w =
          (ScopeExit.exn ((w.streamOutcome).getD PyError.decodeError),
            (create_or_verify_cloudwatch_log_group args.aws_cloudwatch_group
              w.groupOutcome).2 ++
              [Event.createLogStream args.aws_cloudwatch_group args.aws_cloudwatch_stream,
                Event.logException]) := by
        rcases ho : w.streamOutcome with _ | e
        · exact absurd (Or.inl ho) hs
        · cases e with
          | clientError code =>
            have hcode : ¬ code = alreadyExistsCode := by
              intro h
              exact hs (Or.inr (by rw [ho, h]))
            rcases hg with hg | hg <;>
              simp [main, create_or_verify_cloudwatch_log_group,
                create_or_verify_cloudwatch_log_stream, create_log_group_call,
                create_log_stream_call, handle_cloudwatch_errors, hg, ho, hcode]
          | decodeError =>
            rcases hg with hg | hg <;>
              simp [main, create_or_verify_cloudwatch_log_group,
                create_or_verify_cloudwatch_log_stream, create_log_group_call,
                create_log_stream_call, handle_cloudwatch_errors, hg, ho]
          | genericError t =>
            rcases hg with hg | hg <;>
              simp [main, create_or_verify_cloudwatch_log_group,
                create_or_verify_cloudwatch_log_stream, create_log_group_call,
                create_log_stream_call, handle_cloudwatch_errors, hg, ho]
      have hgrp : (create_or_verify_cloudwatch_log_group args.aws_cloudwatch_group
          w.groupOutcome).2.filter isRun = [] ∧
          (create_or_verify_cloudwatch_log_group args.aws_cloudwatch_group
          w.groupOutcome).2.filter isPut = [] := by
        rcases hg with hg | hg <;>
          simp [create_or_verify_cloudwatch_log_group, create_log_group_call,
            handle_cloudwatch_errors, hg, isRun, isPut]
      refine ⟨?_, fun hcon => absurd hcon.2 hs, fun _ => ?_⟩
      · intro hrun
        rw [hmain] at hrun
        simp [List.filter_append, hgrp.1, isRun] at hrun
      · rw [hmain]
        simp [List.filter_append, hgrp.1, hgrp.2, isRun, isPut, exitCode]
  · have hmain : main args w =
        (ScopeExit.exn ((w.groupOutcome).getD PyError.decodeError),
          [Event.createLogGroup args.aws_cloudwatch_group, Event.logException]) := by
      rcases ho : w.groupOutcome with _ | e
      · exact absurd (Or.inl ho) hg
      · cases e with
        | clientError code =>
          have hcode : ¬ code = alreadyExistsCode := by
            intro h
            exact hg (Or.inr (by rw [ho, h]))
          simp [main, create_or_verify_cloudwatch_log_group, create_log_group_call,
            handle_cloudwatch_errors, ho, hcode]
        | decodeError =>
          simp [main, create_or_verify_cloudwatch_log_group, create_log_group_call,
            handle_cloudwatch_errors, ho]
        | genericError t =>
          simp [main, create_or_verify_cloudwatch_log_group, create_log_group_call,
            handle_cloudwatch_errors, ho]
    refine ⟨?_, fun hcon => absurd hcon.1 hg, fun _ => ?_⟩
    · intro hrun
      rw [hmain] at hrun
      simp [isRun] at hrun
    · rw [hmain]
      simp [isRun, isPut, exitCode]

/-- Witness for C7: with a failing log-group creation, `main` exits nonzero
and the trace contains no container start and no put call. -/
theorem claim_C7_provision_before_any_start_witness :
    ((main (Args.mk "img" "cmd" "g1" "s1")
        (WorldBehavior.mk (some (PyError.genericError "down")) none none [[104]]
          (fun _ => 0) (fun _ => PutOutcome.ok false) none none)).2.filter isRun ≠ [] →
      provisioningOk (some (PyError.genericError "down")) ∧
        provisioningOk (none : Option PyError)) ∧
    (provisioningOk (some (PyError.genericError "down")) ∧
        provisioningOk (none : Option PyError) →
      ∃ ctr,
        (main (Args.mk "img" "cmd" "g1" "s1")
          (WorldBehavior.mk (some (PyError.genericError "down")) none none [[104]]
            (fun _ => 0) (fun _ => PutOutcome.ok false) none none)).2 =
          (create_or_verify_cloudwatch_log_group "g1" (some (PyError.genericError "down"))).2 ++
            (create_or_verify_cloudwatch_log_stream "g1" "s1" (none : Option PyError)).2 ++
              ctr) ∧
    (¬ provisioningOk (some (PyError.genericError "down")) ∨
        ¬ provisioningOk (none : Option PyError) →
      exitCode (main (Args.mk "img" "cmd" "g1" "s1")
          (WorldBehavior.mk (some (PyError.genericError "down")) none none [[104]]
            (fun _ => 0) (fun _ => PutOutcome.ok false) none none)).1 ≠ 0 ∧
      (main (Args.mk "img" "cmd" "g1" "s1")
          (WorldBehavior.mk (some (PyError.genericError "down")) none none [[104]]
            (fun _ => 0) (fun _ => PutOutcome.ok false) none none)).2.filter isRun = [] ∧
      (main (Args.mk "img" "cmd" "g1" "s1")
          (WorldBehavior.mk (some (PyError.genericError "down")) none none [[104]]
            (fun _ => 0) (fun _ => PutOutcome.ok false) none none)).2.filter isPut = []) :=
  claim_C7_provision_before_any_start (Args.mk "img" "cmd" "g1" "s1")
    (WorldBehavior.mk (some (PyError.genericError "down")) none none [[104]]
      (fun _ => 0) (fun _ => PutOutcome.ok false) none none)

/-- C6: with healthy provisioning, container start and cleanup, if the sink
raises a non-already-exists `ClientError` on the put call for line `j`
(0-based, so line `k = j + 1` of the claim) and returns normally on every
earlier put call, then exactly the first `j` lines were forwarded (as
successful put calls, in order), the error propagates out of the forwarding
loop as the result of `main`, the container is stopped and then removed,
and the process exits nonzero.  An already-exists error raised by a put
call is instead suppressed and the loop continues with the remaining
lines. -/
theorem claim_C6_hard_sink_error_aborts_after_cleanup (args : Args)
    (lines : List (List Nat)) (clock : Nat → Nat) (outcomes : Nat → PutOutcome)
    (j : Nat) (code : String) (hj : j < lines.length) (hcode : code ≠ alreadyExistsCode)
    (hout : outcomes j = PutOutcome.err (PyError.clientError code))
    (hpreok : ∀ i, i < j → (outcomes i).returnsNormally = true)
    (hdec : ∀ l ∈ lines, (utf8Decode l).isSome = true) :
    ((main args (WorldBehavior.mk none none none lines clock outcomes none none)).1 =
      ScopeExit.exn (PyError.clientError code)) ∧
    (exitCode
      (main args (WorldBehavior.mk none none none lines clock outcomes none none)).1 ≠ 0) ∧
    (successfulPutCalls
        (main args (WorldBehavior.mk none none none lines clock outcomes none none)).2 =
      (List.enumFrom 0 (lines.take j)).map
        (fun p => (args.aws_cloudwatch_group, args.aws_cloudwatch_stream,
          [LogEvent.mk (clock p.1) (decodeD p.2)]))) ∧
    (∃ pre post,
      (main args (WorldBehavior.mk none none none lines clock outcomes none none)).2 =
        pre ++ Event.containerStop true :: Event.containerRemove true :: post) ∧
    (∀ (i : Nat) (line msg : List Nat) (rest2 : List (List Nat))
        (outs : Nat → PutOutcome),
      utf8Decode line = some msg →
      outs i = PutOutcome.err (PyError.clientError alreadyExistsCode) →
      forwardFrom args.aws_cloudwatch_group args.aws_cloudwatch_stream clock outs i
          (line :: rest2) =
        ((forwardFrom args.aws_cloudwatch_group args.aws_cloudwatch_stream clock outs
            (i + 1) rest2).1,
          Event.logInfo ::
            Event.putAttempt args.aws_cloudwatch_group args.aws_cloudwatch_stream
              [LogEvent.mk (clock i) msg] false ::
              Event.logInfo ::
                (forwardFrom args.aws_cloudwatch_group args.aws_cloudwatch_stream clock outs
                  (i + 1) rest2).2)) := by
  have halready : ∀ (i : Nat) (line msg : List Nat) (rest2 : List (List Nat))
      (outs : Nat → PutOutcome),
      utf8Decode line = some msg →
      outs i = PutOutcome.err (PyError.clientError alreadyExistsCode) →
      forwardFrom args.aws_cloudwatch_group args.aws_cloudwatch_stream clock outs i
          (line :: rest2) =
        ((forwardFrom args.aws_cloudwatch_group args.aws_cloudwatch_stream clock outs
            (i + 1) rest2).1,
          Event.logInfo ::
            Event.putAttempt args.aws_cloudwatch_group args.aws_cloudwatch_stream
              [LogEvent.mk (clock i) msg] false ::
              Event.logInfo ::
                (forwardFrom args.aws_cloudwatch_group args.aws_cloudwatch_stream clock outs
                  (i + 1) rest2).2) := by
    intro i line msg rest2 outs hm ho
    rw [forwardFrom, ho,
      write_logs_already args.aws_cloudwatch_group args.aws_cloudwatch_stream (clock i)
        line msg hm]
    simp
  obtain ⟨badline, rest, hdrop⟩ : ∃ a r, lines.drop j = a :: r := by
    cases hd : lines.drop j with
    | nil =>
      have hle := List.drop_eq_nil_iff.mp hd
      omega
    | cons a r => exact ⟨a, r, rfl⟩
  have hsplit : lines = lines.take j ++ (badline :: rest) := by
    conv_lhs => rw [← List.take_append_drop j lines]
    rw [hdrop]
  have hlen : (lines.take j).length = j := by
    rw [List.length_take]
    exact min_eq_left hj.le
  have hdecpre : ∀ l ∈ lines.take j, (utf8Decode l).isSome = true :=
    fun l hl => hdec l (List.take_subset j lines hl)
  have hokpre : ∀ jj, jj < (lines.take j).length →
      (outcomes (0 + jj)).returnsNormally = true := by
    intro jj hjj
    rw [hlen] at hjj
    simpa using hpreok jj hjj
  have hbadmem : badline ∈ lines := by
    have hmem : badline ∈ lines.drop j := by
      rw [hdrop]
      simp
    exact List.drop_subset j lines hmem
  obtain ⟨msgb, hmsgb⟩ := Option.isSome_iff_exists.mp (hdec badline hbadmem)
  have he : PyError.clientError code ≠ PyError.clientError alreadyExistsCode := by
    intro h
    injection h with h2
    exact hcode h2
  have hbad : forwardFrom args.aws_cloudwatch_group args.aws_cloudwatch_stream clock
      outcomes j (badline :: rest) =
      (Except.error (PyError.clientError code),
        [Event.logInfo,
          Event.putAttempt args.aws_cloudwatch_group args.aws_cloudwatch_stream
            [LogEvent.mk (clock j) msgb] false,
          Event.logException]) := by
    rw [forwardFrom, hout,
      write_logs_raises args.aws_cloudwatch_group args.aws_cloudwatch_stream (clock j)
        badline msgb _ hmsgb he]
  have hfull : forwardFrom args.aws_cloudwatch_group args.aws_cloudwatch_stream clock
      outcomes 0 lines =
      (Except.error (PyError.clientError code),
        okLineTrace args.aws_cloudwatch_group args.aws_cloudwatch_stream clock outcomes 0
            (lines.take j) ++
          [Event.logInfo,
            Event.putAttempt args.aws_cloudwatch_group args.aws_cloudwatch_stream
              [LogEvent.mk (clock j) msgb] false,
            Event.logException]) := by
    conv_lhs => rw [hsplit]
    rw [forwardFrom_ok_segment args.aws_cloudwatch_group args.aws_cloudwatch_stream clock
      outcomes (lines.take j) 0 (badline :: rest) hdecpre hokpre, hlen, Nat.zero_add, hbad]
  have hmain : main args (WorldBehavior.mk none none none lines clock outcomes none none) =
      (ScopeExit.exn (PyError.clientError code),
        Event.createLogGroup args.aws_cloudwatch_group ::
          Event.createLogStream args.aws_cloudwatch_group args.aws_cloudwatch_stream ::
            Event.containerRun args.docker_image (shellWrap args.bash_command) true true ::
              Event.logInfo ::
                ((okLineTrace args.aws_cloudwatch_group args.aws_cloudwatch_stream clock
                    outcomes 0 (lines.take j) ++
                  [Event.logInfo,
                    Event.putAttempt args.aws_cloudwatch_group args.aws_cloudwatch_stream
                      [LogEvent.mk (clock j) msgb] false,
                    Event.logException]) ++
                  [Event.containerStop true, Event.containerRemove true,
                    Event.logInfo])) := by
    simp only [main, create_or_verify_cloudwatch_log_group,
      create_or_verify_cloudwatch_log_stream, create_log_group_call, create_log_stream_call,
      handle_cloudwatch_errors]
    rw [hfull]
    simp [managed_container, exceptToExit]
  refine ⟨?_, ?_, ?_, ?_, halready⟩
  · rw [hmain]
  · rw [hmain]
    simp [exitCode]
  · rw [hmain]
    simp only [successfulPutCalls_cons_createLogGroup, successfulPutCalls_cons_createLogStream,
      successfulPutCalls_cons_containerRun, successfulPutCalls_cons_logInfo,
      successfulPutCalls_append,
      successfulPutCalls_okLineTrace args.aws_cloudwatch_group args.aws_cloudwatch_stream
        clock outcomes (lines.take j) 0]
    simp [successfulPutCalls_cons_logInfo, successfulPutCalls_cons_put_false,
      successfulPutCalls_cons_logException, successfulPutCalls_cons_containerStop,
      successfulPutCalls_cons_containerRemove, successfulPutCalls_nil]
  · refine ⟨Event.createLogGroup args.aws_cloudwatch_group ::
      Event.createLogStream args.aws_cloudwatch_group args.aws_cloudwatch_stream ::
        Event.containerRun args.docker_image (shellWrap args.bash_command) true true ::
          Event.logInfo ::
            (okLineTrace args.aws_cloudwatch_group args.aws_cloudwatch_stream clock
                outcomes 0 (lines.take j) ++
              [Event.logInfo,
                Event.putAttempt args.aws_cloudwatch_group args.aws_cloudwatch_stream
                  [LogEvent.mk (clock j) msgb] false,
                Event.logException]), [Event.logInfo], ?_⟩
    rw [hmain]
    simp

/-- Witness for C6: five one-byte lines, the put call for line 3 (0-based
index 2) raises a throttling `ClientError`. -/
theorem claim_C6_hard_sink_error_aborts_after_cleanup_witness :
    ((main (Args.mk "img" "cmd" "g1" "s1")
        (WorldBehavior.mk none none none [[49], [50], [51], [52], [53]] (fun i => i)
          (fun i => if i = 2 then PutOutcome.err (PyError.clientError "Throttling")
            else PutOutcome.ok false) none none)).1 =
      ScopeExit.exn (PyError.clientError "Throttling")) ∧
    (exitCode
      (main (Args.mk "img" "cmd" "g1" "s1")
        (WorldBehavior.mk none none none [[49], [50], [51], [52], [53]] (fun i => i)
          (fun i => if i = 2 then PutOutcome.err (PyError.clientError "Throttling")
            else PutOutcome.ok false) none none)).1 ≠ 0) ∧
    (successfulPutCalls
        (main (Args.mk "img" "cmd" "g1" "s1")
          (WorldBehavior.mk none none none [[49], [50], [51], [52], [53]] (fun i => i)
            (fun i => if i = 2 then PutOutcome.err (PyError.clientError "Throttling")
              else PutOutcome.ok false) none none)).2 =
      (List.enumFrom 0 ([[49], [50], [51], [52], [53]].take 2)).map
        (fun p => ("g1", "s1", [LogEvent.mk ((fun i => i) p.1) (decodeD p.2)]))) ∧
    (∃ pre post,
      (main (Args.mk "img" "cmd" "g1" "s1")
        (WorldBehavior.mk none none none [[49], [50], [51], [52], [53]] (fun i => i)
          (fun i => if i = 2 then PutOutcome.err (PyError.clientError "Throttling")
            else PutOutcome.ok false) none none)).2 =
        pre ++ Event.containerStop true :: Event.containerRemove true :: post) ∧
    (∀ (i : Nat) (line msg : List Nat) (rest2 : List (List Nat))
        (outs : Nat → PutOutcome),
      utf8Decode line = some msg →
      outs i = PutOutcome.err (PyError.clientError alreadyExistsCode) →
      forwardFrom "g1" "s1" (fun i => i) outs i (line :: rest2) =
        ((forwardFrom "g1" "s1" (fun i => i) outs (i + 1) rest2).1,
          Event.logInfo ::
            Event.putAttempt "g1" "s1" [LogEvent.mk ((fun i => i) i) msg] false ::
              Event.logInfo ::
                (forwardFrom "g1" "s1" (fun i => i) outs (i + 1) rest2).2)) :=
  claim_C6_hard_sink_error_aborts_after_cleanup (Args.mk "img" "cmd" "g1" "s1")
    [[49], [50], [51], [52], [53]] (fun i => i)
    (fun i => if i = 2 then PutOutcome.err (PyError.clientError "Throttling")
      else PutOutcome.ok false)
    2 "Throttling" (by decide) (by decide) (by decide)
    (by
      intro i hi
      interval_cases i <;> decide)
    (by decide)

end LogShipper
